import Mathlib

/-!
A shallow embedding of `convert.py` from the repository
`kaspersky-password-manager-to-csv`, together with theorems settling the
frozen claims about its specification.

Python strings are modelled as `List Char`; Python's `str.find`, slicing,
`str.strip`, `str.split`, `str.splitlines` and `dict` construction are
modelled explicitly below.  Fallible library calls (`np.concatenate`,
`pandas.DataFrame` construction) are modelled with `Except String`.
-/

namespace Convert

/-- Python strings, modelled as lists of characters. -/
abbrev Str := List Char

/-- Build a modelled Python string from a Lean string literal. -/
def str (s : String) : Str := s.data

/-- Truthiness of an `Optional[str]` value in Python: `None` and the empty
string are falsy, every other string is truthy. -/
def optTruthy : Option Str → Bool
  | none => false
  | some s => !s.isEmpty

/-- Model of `s.split(sep, maxsplit=1)` restricted to the split point:
`none` when `sep` does not occur in `s`, otherwise the text before and
after the first (leftmost) occurrence of `sep`. -/
def splitFirst (sep : Str) : Str → Option (Str × Str)
  | [] => if sep.isEmpty then some ([], []) else none
  | c :: rest =>
    if sep.isPrefixOf (c :: rest) then some ([], (c :: rest).drop sep.length)
    else (splitFirst sep rest).map (fun p => (c :: p.1, p.2))

/-- `key_value_from_line` from `convert.py`: split the line once on the
first occurrence of `": "`; a line without the separator yields the whole
line as key and the empty string as value. -/
def key_value_from_line (key_value : Str) : Str × Str :=
  match splitFirst (str ": ") key_value with
  | none => (key_value, [])
  | some p => p

/-- The characters Python's `str.splitlines` treats as line boundaries. -/
def isLineBreak (c : Char) : Bool :=
  c = '\n' || c = '\r' || c = '\x0b' || c = '\x0c' ||
  c = (Char.ofNat 0x1c) || c = (Char.ofNat 0x1d) || c = (Char.ofNat 0x1e) ||
  c = (Char.ofNat 0x85) || c = (Char.ofNat 0x2028) || c = (Char.ofNat 0x2029)

/-- Worker for `pySplitlines`; `acc` is the current (reversed) line. -/
def splitlinesAux : Str → Str → List Str
  | [], acc => if acc.isEmpty then [] else [acc.reverse]
  | '\r' :: '\n' :: rest, acc => acc.reverse :: splitlinesAux rest []
  | c :: rest, acc =>
    if isLineBreak c then acc.reverse :: splitlinesAux rest []
    else splitlinesAux rest (c :: acc)

/-- Model of Python's `str.splitlines()`: in particular
`"".splitlines() == []` and a trailing line break produces no extra
empty line. -/
def pySplitlines (s : Str) : List Str := splitlinesAux s []

/-- Model of Python's `s.strip("\n")`: remove newline characters from both
ends of the string. -/
def pyStripNl (s : Str) : Str :=
  ((s.dropWhile (fun c => c = '\n')).reverse.dropWhile (fun c => c = '\n')).reverse

/-- A Python `dict` with string keys and values: an insertion-ordered
association list in which every key occurs at most once. -/
abbrev Dict := List (Str × Str)

/-- One `d[k] = v` update: overwrite in place if `k` is present, append
otherwise (Python dict semantics, insertion order kept). -/
def dictInsert (d : Dict) (k v : Str) : Dict :=
  if d.any (fun p => p.1 = k) then
    d.map (fun p => if p.1 = k then (k, v) else p)
  else d ++ [(k, v)]

/-- Build a dict from a pair list, later pairs overwriting earlier ones
(the semantics of the comprehension at line 23 of `convert.py`). -/
def dictOfPairs (ps : List (Str × Str)) : Dict :=
  ps.foldl (fun d p => dictInsert d p.1 p.2) []

/-- `d.get(k)`, returning `none` when the key is absent. -/
def dictGet (d : Dict) (k : Str) : Option Str :=
  (d.find? (fun p => p.1 = k)).map (fun p => p.2)

/-- `parse_colon_separated_key_value_pairs` from `convert.py`. -/
def parse_colon_separated_key_value_pairs (entry : Str) : Dict :=
  dictOfPairs ((pySplitlines (pyStripNl entry)).map key_value_from_line)

/-- Worker for `pySplit`: structural recursion on `fuel`, which bounds the
number of characters still to be scanned. -/
def splitAux (sep : Str) : Nat → Str → Str → List Str
  | _, [], acc => [acc]
  | 0, s, acc => [acc ++ s]
  | fuel + 1, s@(c :: rest), acc =>
    if sep.isPrefixOf s then acc :: splitAux sep fuel (s.drop sep.length) []
    else splitAux sep fuel rest (acc ++ [c])

/-- Model of Python's `s.split(sep)` for non-empty `sep`: split on every
non-overlapping occurrence, scanning left to right; `"".split(sep)` is
`[""]` and a trailing separator yields a trailing empty chunk. -/
def pySplit (s sep : Str) : List Str :=
  if sep.isEmpty then [s] else splitAux sep s.length s []

/-- `parse_entries_section` from `convert.py`: split the section text on
the literal `"---"` and parse every chunk, trailing empty chunks
included. -/
def parse_entries_section (txt : Str) : List Dict :=
  (pySplit txt (str "---")).map parse_colon_separated_key_value_pairs

/-- `KasperskyWebsiteEntry` from `convert.py`: all fields optional,
populated by alias from a parsed record dict. -/
structure KasperskyWebsiteEntry where
  website_name : Option Str := none
  website_url : Option Str := none
  login_name : Option Str := none
  login : Option Str := none
  password : Option Str := none
  comment : Option Str := none
deriving DecidableEq, Repr

/-- Construction of `KasperskyWebsiteEntry(**entry)`: each field is filled
from its alias key when present, `None` otherwise; unrecognized keys are
dropped. -/
def KasperskyWebsiteEntry.ofDict (d : Dict) : KasperskyWebsiteEntry where
  website_name := dictGet d (str "Website name")
  website_url := dictGet d (str "Website URL")
  login_name := dictGet d (str "Login name")
  login := dictGet d (str "Login")
  password := dictGet d (str "Password")
  comment := dictGet d (str "Comment")

/-- The `name_must_contain_space` classmethod on `KasperskyWebsiteEntry`
(lines 44-48): it would prepend `https://` to values lacking a scheme.
It is defined in the source but never invoked by the pipeline. -/
def KasperskyWebsiteEntry.name_must_contain_space (v : Str) : Str :=
  if !((str "https://").isPrefixOf v || (str "http://").isPrefixOf v) then
    str "https://" ++ v
  else v

/-- `KasperskyApplicationEntry` from `convert.py`. -/
structure KasperskyApplicationEntry where
  application_name : Option Str := none
  login_name : Option Str := none
  login : Option Str := none
  password : Option Str := none
  comment : Option Str := none
deriving DecidableEq, Repr

/-- Construction of `KasperskyApplicationEntry(**entry)` by alias. -/
def KasperskyApplicationEntry.ofDict (d : Dict) : KasperskyApplicationEntry where
  application_name := dictGet d (str "Application")
  login_name := dictGet d (str "Login name")
  login := dictGet d (str "Login")
  password := dictGet d (str "Password")
  comment := dictGet d (str "Comment")

/-- The `name_must_contain_space` classmethod on
`KasperskyApplicationEntry` (lines 58-62), with the source's own boolean
grouping `(not A) or B`; also never invoked by the pipeline. -/
def KasperskyApplicationEntry.name_must_contain_space (v : Str) : Str :=
  if !(str "https://").isPrefixOf v || (str "http://").isPrefixOf v then
    str "https://" ++ v
  else v

/-- `KasperskyNoteEntry` from `convert.py`. -/
structure KasperskyNoteEntry where
  note_name : Option Str := none
  text : Option Str := none
deriving DecidableEq, Repr

/-- Construction of `KasperskyNoteEntry(**entry)` by alias. -/
def KasperskyNoteEntry.ofDict (d : Dict) : KasperskyNoteEntry where
  note_name := dictGet d (str "Name")
  text := dictGet d (str "Text")

/-- `KasperskyPasswordManagerEntriesSet` from `convert.py`. -/
structure KasperskyPasswordManagerEntriesSet where
  websites : List KasperskyWebsiteEntry := []
  applications : List KasperskyApplicationEntry := []
  notes : List KasperskyNoteEntry := []
deriving DecidableEq, Repr

def WEBSITES_IDENTIFIER : Str := str "Websites\n\n"

def APPLICATIONS_IDENTIFIER : Str := str "\n\n---\n\nApplications\n\n"

def NOTES_IDENTIFIER : Str := str "\n\n---\n\nNotes\n\n"

/-- The local `EOF_IDENTIFIER` of `extract_notes_from_txt_format`. -/
def EOF_IDENTIFIER : Str := str "\n\n---\n"

/-- Index of the first occurrence of `sep` in the string, if any. -/
def findIdx? (sep : Str) : Str → Option Nat
  | [] => if sep.isEmpty then some 0 else none
  | c :: rest =>
    if sep.isPrefixOf (c :: rest) then some 0
    else (findIdx? sep rest).map (fun n => n + 1)

/-- Index of the last occurrence of `sep` in the string, if any. -/
def rfindIdx? (sep : Str) : Str → Option Nat
  | [] => if sep.isEmpty then some 0 else none
  | c :: rest =>
    match rfindIdx? sep rest with
    | some n => some (n + 1)
    | none => if sep.isPrefixOf (c :: rest) then some 0 else none

/-- Model of Python's `s.find(sub)`: the index of the first occurrence,
or the sentinel `-1` when `sub` does not occur. -/
def pyFind (s sub : Str) : Int :=
  match findIdx? sub s with
  | some n => (n : Int)
  | none => -1

/-- Model of Python's `s.rfind(sub)`: the index of the last occurrence,
or the sentinel `-1` when `sub` does not occur. -/
def pyRfind (s sub : Str) : Int :=
  match rfindIdx? sub s with
  | some n => (n : Int)
  | none => -1

/-- Normalization of one slice bound, Python semantics: negative indices
count from the end, and bounds are clamped into `[0, len]`. -/
def pyBound (len : Nat) (i : Int) : Nat :=
  if i < 0 then ((len : Int) + i).toNat else min i.toNat len

/-- Model of Python's `s[a:b]` for arbitrary (possibly negative) integer
bounds, as used on the sentinel arithmetic in the extractors. -/
def pySlice (s : Str) (a b : Int) : Str :=
  (s.take (pyBound s.length b)).drop (pyBound s.length a)

/-- `extract_websites_from_txt_format` from `convert.py`. -/
def extract_websites_from_txt_format (text_file_content : Str) : Str :=
  let start_index : Int :=
    pyFind text_file_content WEBSITES_IDENTIFIER + (WEBSITES_IDENTIFIER.length : Int)
  let end_index : Int := pyFind text_file_content APPLICATIONS_IDENTIFIER
  pyStripNl (pySlice text_file_content start_index end_index)

/-- `extract_applications_from_txt_format` from `convert.py`. -/
def extract_applications_from_txt_format (text_file_content : Str) : Str :=
  let start_index : Int :=
    pyFind text_file_content APPLICATIONS_IDENTIFIER + (APPLICATIONS_IDENTIFIER.length : Int)
  let end_index : Int := pyFind text_file_content NOTES_IDENTIFIER
  pyStripNl (pySlice text_file_content start_index end_index)

/-- `extract_notes_from_txt_format` from `convert.py`; the closing marker
is searched from the right (`rfind`). -/
def extract_notes_from_txt_format (text_file_content : Str) : Str :=
  let start_index : Int :=
    pyFind text_file_content NOTES_IDENTIFIER + (NOTES_IDENTIFIER.length : Int)
  let end_index : Int := pyRfind text_file_content EOF_IDENTIFIER
  pyStripNl (pySlice text_file_content start_index end_index)

/-- `extract_entries_from_txt_format` from `convert.py`: extract the three
sections, split each into record blocks, and build the typed entries. -/
def extract_entries_from_txt_format (txt_file_content : Str) :
    KasperskyPasswordManagerEntriesSet where
  websites :=
    (parse_entries_section (extract_websites_from_txt_format txt_file_content)).map
      KasperskyWebsiteEntry.ofDict
  applications :=
    (parse_entries_section (extract_applications_from_txt_format txt_file_content)).map
      KasperskyApplicationEntry.ofDict
  notes :=
    (parse_entries_section (extract_notes_from_txt_format txt_file_content)).map
      KasperskyNoteEntry.ofDict

/-- One output row: the four cells url, username, password, note, each an
optional string (`None` cells are possible for the non-discriminating
fields). -/
abbrev Row := List (Option Str)

/-- The shapes `np.array` can take here: `np.array([])` on the empty list
is a one-dimensional float array of shape `(0,)`; a non-empty list of
4-cell rows gives a two-dimensional object array. -/
inductive NpArray where
  | empty1d : NpArray
  | rows2d : List Row → NpArray
deriving DecidableEq, Repr

/-- `np.array` applied to the list comprehensions of
`create_google_passwords_df_from_entries`. -/
def npArray : List Row → NpArray
  | [] => .empty1d
  | r :: rs => .rows2d (r :: rs)

/-- `np.concatenate((a, b), axis=0)`: defined when the inputs have the
same number of dimensions (their shapes agree except on the
concatenation axis); concatenating a two-dimensional array with the
`(0,)`-shaped `np.array([])` raises `ValueError`. -/
def npConcatenate (a b : NpArray) : Except String NpArray :=
  match a, b with
  | .empty1d, .empty1d => .ok .empty1d
  | .rows2d xs, .rows2d ys => .ok (.rows2d (xs ++ ys))
  | _, _ =>
    .error "ValueError: all the input arrays must have the same number of dimensions"

/-- A pandas `DataFrame` as observable here: column labels plus data
rows. -/
structure DataFrame where
  columns : List Str := []
  rows : List Row := []
deriving DecidableEq, Repr

/-- `DataFrame(arr, columns=cols)`: a two-dimensional array of 4-cell
rows fits the four labels; the one-dimensional `(0,)` array is a single
column of zero rows and mismatches the four labels, raising
`ValueError`. -/
def dataFrameOfArray (a : NpArray) (cols : List Str) : Except String DataFrame :=
  match a with
  | .rows2d rs => .ok { columns := cols, rows := rs }
  | .empty1d =>
    .error "ValueError: Shape of passed values is (0, 1), indices imply (0, 4)"

/-- The website filter of line 129: Python truthiness of `website_url`
and `website_name` (`None` and the empty string both fail it). -/
def websiteQualifies (e : KasperskyWebsiteEntry) : Bool :=
  optTruthy e.website_url && optTruthy e.website_name

/-- The row built for one website entry (line 128). -/
def websiteRow (e : KasperskyWebsiteEntry) : Row :=
  [e.website_url, e.login, e.password, e.comment]

/-- The application filter of line 135: Python truthiness of
`application_name`. -/
def applicationQualifies (e : KasperskyApplicationEntry) : Bool :=
  optTruthy e.application_name

/-- The row built for one application entry (line 134). -/
def applicationRow (e : KasperskyApplicationEntry) : Row :=
  [e.application_name, e.login, e.password, e.comment]

/-- The column labels of the produced table (line 140). -/
def googleColumns : List Str :=
  [str "url", str "username", str "password", str "note"]

/-- `create_google_passwords_df_from_entries` from `convert.py`: an empty
`DataFrame()` (no columns) when both entry lists are empty, otherwise the
two filtered groups as numpy arrays, concatenated and wrapped into a
`DataFrame` with the four column labels.  The numpy and pandas calls can
raise, hence the `Except`. -/
def create_google_passwords_df_from_entries
    (entries : KasperskyPasswordManagerEntriesSet) : Except String DataFrame :=
  if entries.websites.isEmpty && entries.applications.isEmpty then
    .ok {}
  else
    let websites_entries := npArray ((entries.websites.filter websiteQualifies).map websiteRow)
    let applications_entries :=
      npArray ((entries.applications.filter applicationQualifies).map applicationRow)
    match npConcatenate websites_entries applications_entries with
    | .error e => .error e
    | .ok arr => dataFrameOfArray arr googleColumns

/-- The full conversion pipeline on file content: extraction followed by
flattening (the body of `convert_txt_file_to_google_passwords_compatible_csv`
after the file read). -/
def convertPipeline (txt_file_content : Str) : Except String DataFrame :=
  create_google_passwords_df_from_entries (extract_entries_from_txt_format txt_file_content)

deriving instance DecidableEq for Except

/-- The worked example input of the spec: one Websites block, empty
Applications and Notes sections, laid out as the documented file
format. -/
def specExampleInput : Str :=
  str "Websites\n\nWebsite name: Example\nWebsite URL: example.com\nLogin: bob\nPassword: secret1\nComment: work\n\n---\n\nApplications\n\n\n\n---\n\nNotes\n\n\n\n---\n"

/-- An input whose three sections are all empty, with all four section
markers present in the correct order. -/
def emptySectionsInput : Str :=
  str "Websites\n\n\n\n---\n\nApplications\n\n\n\n---\n\nNotes\n\n\n\n---\n"

/-- An input whose Websites section itself ends in a `---` delimiter, so
that splitting the section produces a trailing empty record block. -/
def trailingDelimiterInput : Str :=
  str "Websites\n\nA: b\n---\n\n---\n\nApplications\n\nX\n\n---\n\nNotes\n\nY\n\n---\n"

/-- Modelled from the spec (the reading claim C5 asserts): the number of
record blocks of a section, where a trailing empty block produced by a
trailing delimiter is discarded rather than counted. -/
def specRecordBlockCount (section_text : Str) : Nat :=
  let blocks := pySplit section_text (str "---")
  (if blocks.getLast? = some [] then blocks.dropLast else blocks).length

/-- The website entry parsed from the spec example's Websites block. -/
def exampleWebsiteEntry : KasperskyWebsiteEntry where
  website_name := some (str "Example")
  website_url := some (str "example.com")
  login := some (str "bob")
  password := some (str "secret1")
  comment := some (str "work")

/-- A qualifying application entry. -/
def exampleApplicationEntry : KasperskyApplicationEntry where
  application_name := some (str "Steam")
  login := some (str "alice")
  password := some (str "pw2")
  comment := some (str "games")

/-- A website entry whose discriminating field `website_url` is set, but
set to the empty string. -/
def emptyUrlWebsiteEntry : KasperskyWebsiteEntry where
  website_url := some []
  website_name := some (str "NoUrl")
  password := some (str "pw3")

set_option maxRecDepth 100000

theorem isPrefixOf_true (l₁ l₂ : Str) : l₁.isPrefixOf l₂ = true ↔ l₁ <+: l₂ := by
  exact List.isPrefixOf_iff_prefix

theorem sub_of_cons (a : Char) {l₁ l₂ : Str} (h : l₁ <:+: l₂) : l₁ <:+: a :: l₂ := by
  exact List.infix_cons h

theorem splitAux_ne_nil (sep : Str) :
    ∀ (fuel : Nat) (s acc : Str), splitAux sep fuel s acc ≠ []
  | fuel, [], acc => by cases fuel <;> simp [splitAux]
  | 0, c :: rest, acc => by simp [splitAux]
  | fuel + 1, c :: rest, acc => by
    simp only [splitAux]
    split
    · simp
    · exact splitAux_ne_nil sep fuel rest (acc ++ [c])

theorem pySplit_ne_nil (s sep : Str) : pySplit s sep ≠ [] := by
  unfold pySplit
  split
  · simp
  · exact splitAux_ne_nil sep s.length s []

theorem parse_entries_section_ne_nil (txt : Str) : parse_entries_section txt ≠ [] := by
  unfold parse_entries_section
  simpa using pySplit_ne_nil txt (str "---")

theorem pySlice_sub (s : Str) (a b : Int) : pySlice s a b <:+: s := by
  unfold pySlice
  refine ⟨(s.take (pyBound s.length b)).take (pyBound s.length a),
    s.drop (pyBound s.length b), ?_⟩
  rw [List.take_append_drop, List.take_append_drop]

theorem pyStripNl_sub (s : Str) : pyStripNl s <:+: s := by
  unfold pyStripNl
  refine ⟨s.takeWhile (fun c => c = '\n'),
    ((s.dropWhile (fun c => c = '\n')).reverse.takeWhile (fun c => c = '\n')).reverse, ?_⟩
  conv_rhs => rw [← List.takeWhile_append_dropWhile (fun c => c = '\n') s]
  rw [List.append_assoc]
  congr 1
  rw [← List.reverse_append, List.takeWhile_append_dropWhile, List.reverse_reverse]

theorem splitFirst_eq_none (sep : Str) (h1 : sep ≠ []) (s : Str) (h : ¬ sep <:+: s) :
    splitFirst sep s = none := by
  induction s with
  | nil =>
    have h2 : sep.isEmpty = false := by
      cases sep with
      | nil => exact absurd rfl h1
      | cons a l => rfl
    simp [splitFirst, h2]
  | cons c rest ih =>
    have hp : sep.isPrefixOf (c :: rest) = false := by
      cases hcase : sep.isPrefixOf (c :: rest) with
      | false => rfl
      | true => exact absurd (((isPrefixOf_true sep (c :: rest)).mp hcase).isInfix) h
    have hr : splitFirst sep rest = none := ih (fun hin => h (sub_of_cons c hin))
    simp [splitFirst, hp, hr]

theorem sepEq : str ": " = [':', ' '] := by decide

theorem splitFirst_append_sep (v k : Str) (h : ¬ str ": " <:+: k) :
    splitFirst (str ": ") (k ++ str ": " ++ v) = some (k, v) := by
  induction k with
  | nil => simp [splitFirst, List.isPrefixOf, str]
  | cons c k1 ih =>
    have hp2 : ¬ str ": " <+: c :: (k1 ++ str ": " ++ v) := by
      intro hcon
      obtain ⟨t, ht⟩ := hcon
      rw [sepEq] at ht
      injection ht with hc ht2
      cases k1 with
      | nil =>
        simp only [List.nil_append, sepEq] at ht2
        injection ht2 with hbad
        exact absurd hbad (by decide)
      | cons d k2 =>
        injection ht2 with hd ht3
        refine h ⟨[], k2, ?_⟩
        rw [List.nil_append, sepEq, ← hc, ← hd]
        rfl
    have hk1 : ¬ str ": " <:+: k1 := fun hin => h (sub_of_cons c hin)
    have hrec := ih hk1
    rw [List.cons_append]
    simp only [List.append_assoc] at hp2 hrec
    simp [splitFirst, hp2, hrec]

theorem optTruthy_some (o : Option Str) :
    optTruthy o = true ↔ ∃ s, o = some s ∧ s ≠ [] := by
  cases o with
  | none => simp [optTruthy]
  | some s => cases s <;> simp [optTruthy]

theorem create_ok_rows (es : KasperskyPasswordManagerEntriesSet) (cols : List Str)
    (rows : List Row)
    (h : create_google_passwords_df_from_entries es = .ok ⟨cols, rows⟩) :
    rows = (es.websites.filter websiteQualifies).map websiteRow ++
      (es.applications.filter applicationQualifies).map applicationRow := by
  simp only [create_google_passwords_df_from_entries] at h
  by_cases hempty : (es.websites.isEmpty && es.applications.isEmpty) = true
  · rw [if_pos hempty] at h
    rw [Bool.and_eq_true, List.isEmpty_iff, List.isEmpty_iff] at hempty
    obtain ⟨hw, ha⟩ := hempty
    simp only [Except.ok.injEq, DataFrame.mk.injEq] at h
    rw [hw, ha]
    simp [← h.2]
  · rw [if_neg hempty] at h
    cases hW : (es.websites.filter websiteQualifies).map websiteRow with
    | nil =>
      cases hA : (es.applications.filter applicationQualifies).map applicationRow with
      | nil =>
        rw [hW, hA] at h
        simp only [npArray, npConcatenate, dataFrameOfArray] at h
        exact Except.noConfusion h
      | cons r2 rs2 =>
        rw [hW, hA] at h
        simp only [npArray, npConcatenate] at h
        exact Except.noConfusion h
    | cons r rs =>
      cases hA : (es.applications.filter applicationQualifies).map applicationRow with
      | nil =>
        rw [hW, hA] at h
        simp only [npArray, npConcatenate] at h
        exact Except.noConfusion h
      | cons r2 rs2 =>
        rw [hW, hA] at h
        simp only [npArray, npConcatenate, dataFrameOfArray, Except.ok.injEq,
          DataFrame.mk.injEq] at h
        exact h.2.symm

/-- C1: on the spec's worked example input (a single Websites block,
empty Applications and Notes sections), extraction parses exactly the
expected website entry, but the claimed single output row is never
produced: the empty applications group becomes the `(0,)`-shaped
`np.array([])`, and `np.concatenate` raises a `ValueError`, so the
pipeline fails instead of returning the row
`url=example.com, username=bob, password=secret1, note=work`. -/
theorem c1_spec_example_pipeline_raises :
    (extract_entries_from_txt_format specExampleInput).websites = [exampleWebsiteEntry] ∧
    ((extract_entries_from_txt_format specExampleInput).applications.filter
      applicationQualifies) = [] ∧
    convertPipeline specExampleInput =
      .error "ValueError: all the input arrays must have the same number of dimensions" := by
  refine ⟨rfl, rfl, rfl⟩

/-- C2: an input holding all four section markers in the correct order on
which extraction followed by flattening raises instead of returning a
table: with three empty sections, no entry qualifies, both groups become
the `(0,)`-shaped `np.array([])`, their concatenation is one-dimensional,
and the `DataFrame` constructor raises on the four column labels.  This
refutes the claim that flattening returns (does not raise) for every such
input. -/
theorem c2_all_markers_pipeline_raises :
    pyFind emptySectionsInput WEBSITES_IDENTIFIER = 0 ∧
    pyFind emptySectionsInput WEBSITES_IDENTIFIER <
      pyFind emptySectionsInput APPLICATIONS_IDENTIFIER ∧
    pyFind emptySectionsInput APPLICATIONS_IDENTIFIER <
      pyFind emptySectionsInput NOTES_IDENTIFIER ∧
    pyFind emptySectionsInput NOTES_IDENTIFIER <
      pyRfind emptySectionsInput EOF_IDENTIFIER ∧
    convertPipeline emptySectionsInput =
      .error "ValueError: Shape of passed values is (0, 1), indices imply (0, 4)" := by
  refine ⟨rfl, by decide, by decide, by decide, rfl⟩

/-- C3 counterexample: on the EntrySet with no entries at all (so both
filtered lists are empty), `create_google_passwords_df_from_entries`
returns the bare `DataFrame()` with NO columns, not a table carrying the
four headers url, username, password, note. -/
theorem c3_counterexample :
    create_google_passwords_df_from_entries ⟨[], [], []⟩ =
      .ok { columns := [], rows := [] } ∧
    ([] : List Str) ≠ googleColumns := by
  exact ⟨rfl, by decide⟩

/-- C3 amended: when both filtered lists are empty the function never
returns a table with the four headers: if both raw entry lists are empty
it returns the bare `DataFrame()` with zero columns and zero rows, and
otherwise the one-dimensional empty arrays make the `DataFrame`
constructor raise a `ValueError`. -/
theorem c3_amended (es : KasperskyPasswordManagerEntriesSet)
    (hw : es.websites.filter websiteQualifies = [])
    (ha : es.applications.filter applicationQualifies = []) :
    (es.websites = [] ∧ es.applications = [] →
      create_google_passwords_df_from_entries es = .ok { columns := [], rows := [] }) ∧
    (¬(es.websites = [] ∧ es.applications = []) →
      create_google_passwords_df_from_entries es =
        .error "ValueError: Shape of passed values is (0, 1), indices imply (0, 4)") := by
  constructor
  · rintro ⟨h1, h2⟩
    simp [create_google_passwords_df_from_entries, h1, h2]
  · intro hne
    have hempty : (es.websites.isEmpty && es.applications.isEmpty) = false := by
      rcases Decidable.not_and_iff_or_not.mp hne with hc | hc <;>
        simp [List.isEmpty_iff, hc]
    simp [create_google_passwords_df_from_entries, hempty, hw, ha, npArray,
      npConcatenate, dataFrameOfArray]

/-- C3 amended, witness: the empty EntrySet gives the column-less empty
table, and an EntrySet holding one non-qualifying website raises. -/
theorem c3_amended_witness :
    create_google_passwords_df_from_entries ⟨[], [], []⟩ =
      .ok { columns := [], rows := [] } ∧
    create_google_passwords_df_from_entries ⟨[emptyUrlWebsiteEntry], [], []⟩ =
      .error "ValueError: Shape of passed values is (0, 1), indices imply (0, 4)" := by
  constructor
  · exact (c3_amended ⟨[], [], []⟩ rfl rfl).1 ⟨rfl, rfl⟩
  · refine (c3_amended ⟨[emptyUrlWebsiteEntry], [], []⟩ rfl rfl).2 ?_
    intro hcon
    exact List.cons_ne_nil _ _ hcon.1

/-- C4 counterexample: a website entry whose `website_url` is set to the
empty string (with `website_name` set and non-empty) does NOT contribute
an output row, contrary to the claim: the code filters by Python
truthiness, not by non-null-ness. -/
theorem c4_counterexample :
    (emptyUrlWebsiteEntry.website_url ≠ none ∧
      emptyUrlWebsiteEntry.website_name ≠ none) ∧
    websiteQualifies emptyUrlWebsiteEntry = false ∧
    create_google_passwords_df_from_entries
        ⟨[exampleWebsiteEntry, emptyUrlWebsiteEntry], [exampleApplicationEntry], []⟩ =
      .ok { columns := googleColumns,
            rows := [websiteRow exampleWebsiteEntry,
              applicationRow exampleApplicationEntry] } ∧
    websiteRow emptyUrlWebsiteEntry ∉
      [websiteRow exampleWebsiteEntry, applicationRow exampleApplicationEntry] := by
  exact ⟨by decide, rfl, by decide, by decide⟩

/-- C4 amended: a WebsiteEntry passes the output filter iff `website_url`
and `website_name` are both truthy (non-null AND non-empty), and an
ApplicationEntry iff `application_name` is truthy; an entry whose
discriminating field is the empty string does not qualify. -/
theorem c4_amended (e : KasperskyWebsiteEntry) (a : KasperskyApplicationEntry) :
    (websiteQualifies e = true ↔
      ((∃ u, e.website_url = some u ∧ u ≠ []) ∧
        ∃ n, e.website_name = some n ∧ n ≠ [])) ∧
    (applicationQualifies a = true ↔ ∃ m, a.application_name = some m ∧ m ≠ []) := by
  constructor
  · rw [websiteQualifies, Bool.and_eq_true, optTruthy_some, optTruthy_some]
  · rw [applicationQualifies, optTruthy_some]

/-- C5 counterexample: an input whose Websites section ends in a trailing
`---` delimiter yields TWO website entries, while the claim's count (with
the trailing empty block discarded) is one: the trailing empty block is
parsed into an all-null entry, not discarded. -/
theorem c5_counterexample :
    (extract_entries_from_txt_format trailingDelimiterInput).websites.length = 2 ∧
    specRecordBlockCount (extract_websites_from_txt_format trailingDelimiterInput) = 1 := by
  exact ⟨rfl, rfl⟩

/-- C5 amended: each EntrySet sequence's length equals the number of
chunks obtained by splitting its source section on `---`, trailing empty
chunks INCLUDED (no block is ever discarded). -/
theorem c5_amended (t : Str) :
    (extract_entries_from_txt_format t).websites.length =
      (pySplit (extract_websites_from_txt_format t) (str "---")).length ∧
    (extract_entries_from_txt_format t).applications.length =
      (pySplit (extract_applications_from_txt_format t) (str "---")).length ∧
    (extract_entries_from_txt_format t).notes.length =
      (pySplit (extract_notes_from_txt_format t) (str "---")).length := by
  refine ⟨?_, ?_, ?_⟩ <;> simp [extract_entries_from_txt_format, parse_entries_section]

/-- C6: the three section extractors are total functions of the input
text; on every input, marker present or not, the sentinel arithmetic and
clamped slicing produce a (possibly garbage) contiguous substring of the
input, never a failure. -/
theorem c6_extractors_total_on_all_inputs (s : Str) :
    extract_websites_from_txt_format s <:+: s ∧
    extract_applications_from_txt_format s <:+: s ∧
    extract_notes_from_txt_format s <:+: s := by
  refine ⟨?_, ?_, ?_⟩ <;> exact (pyStripNl_sub _).trans (pySlice_sub _ _ _)

/-- C7: every qualifying website entry's output row carries
`website_url` unchanged in the url column (the identity mapping), while
the defined-but-never-invoked normalization `name_must_contain_space`
would have altered a bare domain such as `example.com`. -/
theorem c7_url_column_is_identity (es : KasperskyPasswordManagerEntriesSet)
    (cols : List Str) (rows : List Row) (e : KasperskyWebsiteEntry)
    (h : create_google_passwords_df_from_entries es = .ok ⟨cols, rows⟩)
    (he : e ∈ es.websites) (hq : websiteQualifies e = true) :
    websiteRow e ∈ rows ∧ (websiteRow e).head? = some e.website_url ∧
    KasperskyWebsiteEntry.name_must_contain_space (str "example.com") ≠
      str "example.com" := by
  refine ⟨?_, rfl, by decide⟩
  rw [create_ok_rows es cols rows h]
  exact List.mem_append_left _
    (List.mem_map_of_mem websiteRow (List.mem_filter.mpr ⟨he, hq⟩))

/-- C7 witness at the spec example's entry, inside a two-entry set whose
flattening succeeds. -/
theorem c7_url_column_is_identity_witness :
    websiteRow exampleWebsiteEntry ∈
      [websiteRow exampleWebsiteEntry, applicationRow exampleApplicationEntry] ∧
    (websiteRow exampleWebsiteEntry).head? = some exampleWebsiteEntry.website_url ∧
    KasperskyWebsiteEntry.name_must_contain_space (str "example.com") ≠
      str "example.com" :=
  c7_url_column_is_identity
    ⟨[exampleWebsiteEntry], [exampleApplicationEntry], []⟩ googleColumns
    [websiteRow exampleWebsiteEntry, applicationRow exampleApplicationEntry]
    exampleWebsiteEntry rfl (by decide) rfl

/-- C8: a website entry that passes the output filter (both
discriminating fields set, which the code reads as truthy) and whose
password field holds `p` contributes its row to the output, and that
row's password column is exactly `p`, untransformed. -/
theorem c8_password_preserved (es : KasperskyPasswordManagerEntriesSet)
    (cols : List Str) (rows : List Row) (e : KasperskyWebsiteEntry) (p : Str)
    (h : create_google_passwords_df_from_entries es = .ok ⟨cols, rows⟩)
    (he : e ∈ es.websites) (hu : e.website_url ≠ none) (hn : e.website_name ≠ none)
    (hq : websiteQualifies e = true) (hp : e.password = some p) :
    websiteRow e ∈ rows ∧ (websiteRow e)[2]? = some (some p) := by
  constructor
  · rw [create_ok_rows es cols rows h]
    exact List.mem_append_left _
      (List.mem_map_of_mem websiteRow (List.mem_filter.mpr ⟨he, hq⟩))
  · simp [websiteRow, hp]

/-- C8 witness: the spec example's entry with password `secret1`. -/
theorem c8_password_preserved_witness :
    websiteRow exampleWebsiteEntry ∈
      [websiteRow exampleWebsiteEntry, applicationRow exampleApplicationEntry] ∧
    (websiteRow exampleWebsiteEntry)[2]? = some (some (str "secret1")) :=
  c8_password_preserved
    ⟨[exampleWebsiteEntry], [exampleApplicationEntry], []⟩ googleColumns
    [websiteRow exampleWebsiteEntry, applicationRow exampleApplicationEntry]
    exampleWebsiteEntry (str "secret1") rfl (by decide) (by decide) (by decide)
    rfl rfl

/-- C9: `key_value_from_line` is total; a line with no `": "` separator
yields the whole line as the key and the empty string as the value, and a
line of the shape `k ++ ": " ++ v` with no separator inside `k` splits at
that FIRST occurrence, so the value may itself contain `": "`. -/
theorem c9_line_splitting (s k v : Str) :
    (¬ str ": " <:+: s → key_value_from_line s = (s, [])) ∧
    (¬ str ": " <:+: k → key_value_from_line (k ++ str ": " ++ v) = (k, v)) := by
  constructor
  · intro h
    simp [key_value_from_line, splitFirst_eq_none (str ": ") (by decide) s h]
  · intro h
    have hr := splitFirst_append_sep v k h
    rw [List.append_assoc] at hr
    simp [key_value_from_line, hr]

/-- C9 witness: a separator-free line, and a line whose value itself
contains the separator. -/
theorem c9_line_splitting_witness :
    key_value_from_line (str "no separator line") = (str "no separator line", []) ∧
    key_value_from_line (str "Comment" ++ str ": " ++ str "a: b") =
      (str "Comment", str "a: b") := by
  constructor
  · exact (c9_line_splitting (str "no separator line") [] []).1 (by decide)
  · exact (c9_line_splitting [] (str "Comment") (str "a: b")).2 (by decide)

/-- C10 counterexample: on the empty string `parse_entries_section`
returns one RawEntry, but that RawEntry is the EMPTY mapping, not the
mapping holding the single pair of empty key and empty value: the empty
string has no lines at all (`splitlines` of `""` is `[]`). -/
theorem c10_counterexample :
    parse_entries_section [] = [[]] ∧
    parse_entries_section [] ≠ [[(([] : Str), ([] : Str))]] := by
  exact ⟨rfl, by decide⟩

/-- C10 amended: `parse_entries_section` always returns at least one
RawEntry; on the empty string it returns exactly one RawEntry, the empty
mapping, which types to an all-null record, so every EntrySet sequence
has length at least one. -/
theorem c10_amended (s t : Str) :
    1 ≤ (parse_entries_section s).length ∧
    parse_entries_section [] = [[]] ∧
    KasperskyWebsiteEntry.ofDict [] = {} ∧
    1 ≤ (extract_entries_from_txt_format t).websites.length ∧
    1 ≤ (extract_entries_from_txt_format t).applications.length ∧
    1 ≤ (extract_entries_from_txt_format t).notes.length := by
  have hs : ∀ u : Str, 1 ≤ (parse_entries_section u).length := by
    intro u
    rcases hne : parse_entries_section u with _ | ⟨d, ds⟩
    · exact absurd hne (parse_entries_section_ne_nil u)
    · simp
  refine ⟨hs s, rfl, rfl, ?_, ?_, ?_⟩ <;>
    simpa [extract_entries_from_txt_format] using hs _

end Convert
